import Mathlib

/-
Verification of the quadplay game loader (src/console/quadplay-load.js).

Each definition below is a shallow embedding of one routine of the source
file; comments cite the JavaScript line numbers they were transcribed from.
JavaScript 32-bit integers are modelled as `Nat` with explicit masking,
fallible routines return `Except`, and JS objects become Lean structures.
-/

namespace Quadplay

/-! ## Hex color reader (quadplay-load.js lines 41-88) -/

/-- Numeric value of one hexadecimal digit, as consumed by `parseInt(str, 16)`. -/
def hexDigitVal (c : Char) : Nat :=
  if '0' ≤ c ∧ c ≤ '9' then c.toNat - '0'.toNat
  else if 'a' ≤ c ∧ c ≤ 'f' then c.toNat - 'a'.toNat + 10
  else if 'A' ≤ c ∧ c ≤ 'F' then c.toNat - 'A'.toNat + 10
  else 0

/-- `parseInt(str, 16)` on a string of hexadecimal digits. -/
def hexToNat (l : List Char) : Nat :=
  l.foldl (fun a c => 16 * a + hexDigitVal c) 0

/-- Lines 41-48.  `const div = (str.length === 2) ? 255 : 15;` then leading
zeros are stripped; an all-zero string returns 0; otherwise
`parseInt(str, 16) / div`.  Note that `div` is chosen from the length of the
string BEFORE zero stripping. -/
def parseHex (str : String) : ℚ :=
  let div : Nat := if str.length = 2 then 255 else 15
  let stripped := str.data.dropWhile (fun c => c == '0')
  if stripped.length = 0 then 0 else (hexToNat stripped : ℚ) / (div : ℚ)

structure Color where
  r : ℚ
  g : ℚ
  b : ℚ
  a : ℚ
deriving Repr

/-- `str.substring(a, b)`. -/
def substring (s : String) (a b : Nat) : String :=
  String.mk ((s.data.drop a).take (b - a))

/-- `str[k]`, as a one-character string. -/
def charAtStr (s : String) (k : Nat) : String :=
  String.mk ((s.data.drop k).take 1)

/-- Lines 51-88.  `parseHexColor(str)`: switch on `str.length` with
fall-through (8 sets `a` then shares the RRGGBB case; 4 sets `a` then shares
the RGB case); lengths 2 and 1 are grayscale; anything else throws. -/
def parseHexColor (str : String) : Except String Color :=
  match str.length with
  | 8 => .ok { r := parseHex (substring str 0 2), g := parseHex (substring str 2 4),
               b := parseHex (substring str 4 6), a := parseHex (substring str 6 8) }
  | 6 => .ok { r := parseHex (substring str 0 2), g := parseHex (substring str 2 4),
               b := parseHex (substring str 4 6), a := 1 }
  | 4 => .ok { r := parseHex (charAtStr str 0), g := parseHex (charAtStr str 1),
               b := parseHex (charAtStr str 2), a := parseHex (charAtStr str 3) }
  | 3 => .ok { r := parseHex (charAtStr str 0), g := parseHex (charAtStr str 1),
               b := parseHex (charAtStr str 2), a := 1 }
  | 2 => .ok { r := parseHex str, g := parseHex str, b := parseHex str, a := 1 }
  | 1 => .ok { r := parseHex str, g := parseHex str, b := parseHex str, a := 1 }
  | _ => .error "Illegal hexadecimal color specification"

/-! ## Screen-size validation (afterLoadGame, lines 135-155) -/

def allowedScreenSizes : List (Nat × Nat) :=
  [(384, 224), (192, 112), (128, 128), (64, 64)]

/-- Lines 137-155.  A missing `screenSize` field is replaced by the default
`{x: 384, y: 224}` before the screen size is checked against the allowed
set; a size outside the set throws (`UnsupportedScreenSize`). -/
def checkScreenSize (screenSize : Option (Nat × Nat)) : Except String (Nat × Nat) :=
  let s := screenSize.getD (384, 224)
  if allowedScreenSizes.any (fun a => a.1 == s.1 && a.2 == s.2) then .ok s
  else .error "is not a supported screen size"

/-! ## Start-mode validation (afterLoadGame, lines 182-210) -/

/-- Lines 188-194: `numStartModes` counts the mode names whose
`indexOf('*') !== -1`, i.e. that contain the start marker character. -/
def countStartModes (modes : List String) : Nat :=
  modes.countP (fun m => m.data.contains '*')

/-- Lines 205-209: zero start-marked modes throws `No starting mode`,
more than one throws `Too many starting modes`, exactly one proceeds
(the spec's `ManifestError` cases). -/
def validateModes (modes : List String) : Except String (List String) :=
  if countStartModes modes = 0 then .error "No starting mode (noted with *)"
  else if countStartModes modes > 1 then .error "Too many starting modes (noted with *)"
  else .ok modes

/-! ## Pixel quantization and the flipped buffer (lines 424-462) -/

/-- Lines 454-459, body of the quantization loop of `getImageData4Bit`:
`const c = (data[i] >> 4) & 0x0F0F0F0F; data[i] = (c << 4) | c;`.
The JS `>>` is an arithmetic shift on the int32 view of the word, but the
mask `0x0F0F0F0F` clears bits 28-31, the only bits where an arithmetic and a
logical shift of a 32-bit word differ, so the logical `>>>` used here agrees
with the source for every `v < 2^32`.  The `let c` of the source appears
twice below. -/
def quantize32 (v : Nat) : Nat :=
  ((((v >>> 4) &&& 0x0F0F0F0F) <<< 4) ||| ((v >>> 4) &&& 0x0F0F0F0F))

/-- Lines 444-462, `getImageData4Bit`: quantize every packed RGBA word of the
pixel buffer in place. -/
def getImageData4Bit (data : List Nat) : List Nat :=
  data.map quantize32

/-- Lines 430-436, the mirror loop of `getImageData4BitAndFlip`:
`for y, for x: flipped[x + y*width] = data[(width-1-x) + y*width]`.
The write index `x + y*w` increases by exactly one per iteration, so the
doubly nested loop writes the rows of the list below in order. -/
def flipBuffer (w h : Nat) (data : List Nat) : List Nat :=
  (List.range h).flatMap (fun y =>
    (List.range w).map (fun x => data.getD ((w - 1 - x) + y * w) 0))

/-- Lines 424-439, `getImageData4BitAndFlip`: returns the quantized buffer
and its horizontally mirrored copy. -/
def getImageData4BitAndFlip (w h : Nat) (src : List Nat) : List Nat × List Nat :=
  let data := getImageData4Bit src
  (data, flipBuffer w h data)

/-! ## Sprite orientation variants (loadSpritesheet, lines 534-565)

A sprite and its three flipped variants are four JS objects that reference
each other through their `flippedX`/`flippedY` properties.  The heap of the
four objects is modelled as a function `Fin 4 → SpriteRec`; index 0 is the
base sprite, 1 the object stored in `sprite.flippedX`, 2 the object stored
in `sprite.flippedY`, and 3 the object stored in `sprite.flippedX.flippedY`
(and `sprite.flippedY.flippedX`).  `Object.assign(target, src)` copies the
present (`some`) fields of `src` over `target`, leaving target fields in
place where `src` has none. -/

structure SpriteRec where
  /-- `_tileX` (the cell coordinate `u`); identifies the pixel source cell. -/
  tileX : Nat
  /-- `_tileY` (the cell coordinate `v`). -/
  tileY : Nat
  /-- `_x`, the pixel x offset of the cell in the sheet. -/
  x : Nat
  /-- `_y`, the pixel y offset of the cell in the sheet. -/
  y : Nat
  /-- `scale`, one of PP `(1,1)`, NP `(-1,1)`, PN `(1,-1)`, NN `(-1,-1)`. -/
  scale : Int × Int
  /-- the `flippedX` property, a reference into the four-object heap. -/
  flippedX : Option (Fin 4)
  /-- the `flippedY` property. -/
  flippedY : Option (Fin 4)
  /-- `id`, assigned as `++lastSpriteID` on the base sprite and copied by
  `Object.assign` onto the variants. -/
  id : Nat
  /-- `lastSpriteID`, the distinct per-variant field that the three derived
  variants receive (`sprite.flippedX.lastSpriteID = ++lastSpriteID` etc.). -/
  lastSpriteID : Option Nat
deriving Repr, DecidableEq

/-- Lines 534-565 of `loadSpritesheet`, for one cell `(u, v)` of a sheet with
sprite size `(sx, sy)`, gutter `g`, and `lastSpriteID = n` on entry.  Each
`let` transcribes one JS statement, in source order:

* `const sprite = {_tileX:u, ..., id:++lastSpriteID, scale:PP}` (no
  `flippedX`/`flippedY` properties yet);
* `sprite.flippedX = Object.assign({flippedX:sprite}, sprite)`, then its
  `scale = NP` and `lastSpriteID = ++lastSpriteID`;
* `sprite.flippedY = Object.assign({flippedY:sprite}, sprite)` — at this
  point `sprite` already owns `flippedX`, so the copy carries
  `flippedX = sprite.flippedX` — then `lastSpriteID = ++lastSpriteID` and
  `scale = PN`;
* `sprite.flippedX.flippedY = sprite.flippedY.flippedX = Object.assign({}, sprite)`
  — the copy carries the base sprite's `flippedX` and `flippedY` references —
  then its `scale = NN` and `lastSpriteID = ++lastSpriteID`.

Fields not needed by any claim (`spritesheet` back reference, `tileIndex`,
`size`, `_boundingRadius`, `_hasAlpha`) are identical across the four
variants and are omitted. -/
def buildSpriteVariants (u v sx sy g n : Nat) : Fin 4 → SpriteRec :=
  let sprite0 : SpriteRec :=
    { tileX := u, tileY := v, x := u * (sx + g), y := v * (sy + g),
      scale := (1, 1), flippedX := none, flippedY := none,
      id := n + 1, lastSpriteID := none }
  let clone1 : SpriteRec :=
    { sprite0 with flippedX := some 0, scale := (-1, 1), lastSpriteID := some (n + 2) }
  let sprite1 : SpriteRec := { sprite0 with flippedX := some 1 }
  let clone2 : SpriteRec :=
    { sprite1 with flippedY := some 0, lastSpriteID := some (n + 3), scale := (1, -1) }
  let sprite2 : SpriteRec := { sprite1 with flippedY := some 2 }
  let clone3 : SpriteRec := { sprite2 with scale := (-1, -1), lastSpriteID := some (n + 4) }
  let clone2f : SpriteRec := { clone2 with flippedX := some 3 }
  let clone1f : SpriteRec := { clone1 with flippedY := some 3 }
  fun idx =>
    match idx with
    | 0 => sprite2
    | 1 => clone1f
    | 2 => clone2f
    | 3 => clone3

/-- Lines 771-775 of `loadMap`: `let sprite = spritesheet[sx][sy];
if (tileFlipX) sprite = sprite.flippedX; if (tileFlipY) sprite = sprite.flippedY;`
— follow the variant references of the four-object heap starting from the
base sprite. -/
def selectVariant (heap : Fin 4 → SpriteRec) (fx fy : Bool) : Option (Fin 4) :=
  let s : Option (Fin 4) := some 0
  let s : Option (Fin 4) := if fx then s.bind (fun k => (heap k).flippedX) else s
  if fy then s.bind (fun k => (heap k).flippedY) else s

/-! ## Tile GID decoding (loadMap, lines 758-780) -/

/-- Lines 762-780, for one grid value `gid`:
`tileFlipX = (gid & 0x80000000) !== 0`, `tileFlipY = (gid & 0x40000000) !== 0`,
`tmxIndex = (gid & 0x0fffffff) - 1`; when `tmxIndex >= 0` the cell is
`sx = tmxIndex % columns`, `sy = floor(tmxIndex / columns)` (JS `%` and
`Math.floor` on non-negative values), otherwise the cell is empty
(`undefined`).  The result carries `((sx, sy), tileFlipX, tileFlipY)`. -/
def decodeGidCell (gid columns : Nat) : Option ((Nat × Nat) × Bool × Bool) :=
  let tileFlipX : Bool := gid &&& 0x80000000 != 0
  let tileFlipY : Bool := gid &&& 0x40000000 != 0
  let tmxIndex : Int := (gid &&& 0x0fffffff : Nat) - 1
  if 0 ≤ tmxIndex then
    some ((tmxIndex.toNat % columns, tmxIndex.toNat / columns), tileFlipX, tileFlipY)
  else
    none

/-! ## Animation name table (loadSpritesheet, lines 577-613) -/

structure Pt where
  x : Int
  y : Int
deriving Repr, DecidableEq

/-- The `end` field of an animation entry; either coordinate may be absent
(`data.end.x === undefined` / `data.end.y === undefined`). -/
structure EndPt where
  x : Option Int
  y : Option Int
deriving Repr, DecidableEq

/-- One entry of the `names` table.  `single` models the presence of the
`x`/`y` fields (the single-cell form, both coordinates given together);
`start` and `stop` model the `start`/`end` fields of the range form. -/
structure NamesEntry where
  single : Option Pt
  start : Option Pt
  stop : Option EndPt
  extrapolate : Option String
deriving Repr

inductive AnimError where
  /-- Lines 581-583: "must have either `x` and `y` fields or a `start` field,
  but not both". -/
  | bothOrNeitherForm
  /-- Lines 594-596: "Animation frames must be in a horizontal or vertical
  line". -/
  | diagonalRange
  /-- Lines 604-606: "Index ... is out of bounds." -/
  | outOfBounds
deriving Repr, DecidableEq

/-- `for (let k = s; k <= e; ++k)` — the ascending inclusive walk of the JS
for loop (empty when `e < s`). -/
def intRange (s e : Int) : List Int :=
  (List.range (e + 1 - s).toNat).map (fun k => s + k)

/-- Lines 586-612, after the form of the entry is known: `start` is the start
cell, `stop` the (possibly absent, possibly partial) `end` field, `extrap`
the `extrapolate` field.  A missing `end` becomes a copy of `start` (line
588), missing `end.x`/`end.y` default to the start coordinates (lines
590-592), a range varying in both axes throws (lines 594-596), and the cells
are walked with `y` outer and `x` inner, transposing each `(x, y)` to
`(u, v)` and throwing if any visited cell is outside the `cols x rows` grid
(lines 601-610; the JS loop throws at the first out-of-bounds cell, so the
result is an error exactly when some visited cell is out of bounds).
`extrapolate` defaults to `loop` (line 599). -/
def decodeAnimRange (transpose : Bool) (cols rows : Nat) (start : Pt)
    (stop : Option EndPt) (extrap : Option String) :
    Except AnimError (List (Int × Int) × String) :=
  let endX := match stop with | none => start.x | some p => p.x.getD start.x
  let endY := match stop with | none => start.y | some p => p.y.getD start.y
  if start.x ≠ endX ∧ start.y ≠ endY then
    .error .diagonalRange
  else
    let cells := (intRange start.y endY).flatMap (fun y =>
      (intRange start.x endX).map (fun x =>
        ((if transpose then y else x), (if transpose then x else y))))
    if cells.any (fun c => c.1 < 0 || (cols : Int) ≤ c.1 || c.2 < 0 || (rows : Int) ≤ c.2) then
      .error .outOfBounds
    else
      .ok (cells, extrap.getD "loop")

/-- Lines 577-613 for one entry of the `names` table.  Exactly one of the
single-cell form (`x`/`y` fields) or the range form (`start` field) must be
present (lines 581-583); the single-cell form is rewritten to
`{start: data, extrapolate: 'clamp'}` with no `end` field (line 586),
discarding the entry's own `extrapolate`. -/
def decodeAnim (transpose : Bool) (cols rows : Nat) (entry : NamesEntry) :
    Except AnimError (List (Int × Int) × String) :=
  match entry.single, entry.start with
  | some _, some _ => .error .bothOrNeitherForm
  | none, none => .error .bothOrNeitherForm
  | some p, none => decodeAnimRange transpose cols rows p none (some "clamp")
  | none, some st => decodeAnimRange transpose cols rows st entry.stop entry.extrapolate

/-! ## The literal parser (`_parse`, lines 925-1071)

Values are JS values; results of the JS `parseFloat` fallback are kept
symbolic: `floatOf tok` stands for `parseFloat(tok)` (`NaN` when `tok` is
empty or not numeric), `degOf tok` for `parseFloat(tok) * Math.PI / 180`,
and `pctOf tok` for `parseFloat(tok) / 100`. -/

inductive PV where
  | str (s : String)
  | boolean (b : Bool)
  | undef
  | fn
  | num (q : ℚ)
  | posInf
  | negInf
  | nanV
  | floatOf (tok : String)
  | degOf (tok : String)
  | pctOf (tok : String)
  | arr (elems : List PV)
  | table (entries : List (String × PV))
deriving Repr

inductive PErr where
  /-- Line 1070: `throw new Error('hit the end of ' + source)` — reached when
  the outer while loop runs off the end of the input. -/
  | unexpectedEndOfInput
  /-- Modelling artifact: the recursion fuel ran out.  Never reached when the
  fuel exceeds the recursion depth of the source on the same input. -/
  | outOfFuel
deriving Repr, DecidableEq

/-- `' \t\n'` (the whitespace skipped by the outer loop, lines 933-936, and
the leading-space loops, lines 947 and 972). -/
def wsChars : List Char := [' ', '\t', '\n']

/-- `', \t\n'` (trailing space and comma, lines 962 and 1002). -/
def commaWs : List Char := [',', ' ', '\t', '\n']

/-- `': \t\n'` (colon and space before a table value, line 995). -/
def colonWs : List Char := [':', ' ', '\t', '\n']

/-- `/[: \n\t"]/` (key scan separators, line 983). -/
def keySeps : List Char := [':', ' ', '\n', '\t', '"']

/-- `/[,:\[{}\] \n\t"]/` (atom scan separators, line 1010). -/
def atomSeps : List Char := [',', ':', '[', '{', '}', ']', ' ', '\n', '\t', '"']

/-- `while (cs.indexOf(source[i]) !== -1) ++i` — skip characters of `cs`;
an out-of-range access yields `undefined`, which is never in `cs`, so the
loop also stops at the end of the input. -/
def skipMem (cs : List Char) (s : List Char) (i : Nat) : Nat :=
  i + ((s.drop i).takeWhile (fun c => cs.contains c)).length

/-- Lines 918-921, `regexIndexOf(source, re, i)` for a character-class
regex: the index of the first character of `seps` at or after `i`, or
`source.length` when there is none. -/
def sepIndex (seps : List Char) (s : List Char) (i : Nat) : Nat :=
  i + ((s.drop i).takeWhile (fun c => !seps.contains c)).length

/-- `while (i < source.length && source[i] !== close) ++i` (the ellipsis
recovery loops, lines 954 and 990). -/
def skipToClose (close : Char) (s : List Char) (i : Nat) : Nat :=
  i + ((s.drop i).takeWhile (fun c => c != close)).length

/-- Line 941, the quoted-string scan
`while (i < source.length && (source[i] !== '"' || source[i-1] === '\\')) ++i`,
counted over the suffix that starts one past the opening quote; `prev` is
the character before the scan position (initially the opening quote). -/
def strScan (prev : Char) : List Char → Nat
  | [] => 0
  | c :: rest => if c != '"' || prev == '\\' then 1 + strScan c rest else 0

/-- `source.substring(i, e)`. -/
def substr (s : List Char) (i e : Nat) : String :=
  String.mk ((s.drop i).take (e - i))

/-- `token.toLowerCase()`.  The JS and Lean per-character lower-case maps
agree on every character the atom table and the claims exercise. -/
def toLowerStr (t : String) : String :=
  String.mk (t.data.map Char.toLower)

/-- `/re$/.test(token)` for a literal suffix. -/
def endsWithStr (t suffix : String) : Bool :=
  suffix.data.isSuffixOf t.data

/-- Lines 1012-1066: the switch on the lower-cased atom token.  The source
reads `Math.pi` for the `'π'` and `'-π'` cases (lines 1020-1021); the JS
`Math` object has no `pi` property (the constant is `Math.PI`, used
correctly on line 1060), so both atoms evaluate to `undefined`. -/
def atomValue (token : String) : PV :=
  match token with
  | "true" => .boolean true
  | "false" => .boolean false
  | "nil" => .undef
  | "∅" => .undef
  | "builtin" => .undef
  | "function" => .fn
  | "infinity" => .posInf
  | "∞" => .posInf
  | "+infinity" => .posInf
  | "+∞" => .posInf
  | "-infinity" => .negInf
  | "-∞" => .negInf
  | "nan" => .nanV
  | "π" => .undef
  | "-π" => .undef
  | "¼" => .num (1/4)
  | "½" => .num (1/2)
  | "¾" => .num (3/4)
  | "⅓" => .num (1/3)
  | "⅔" => .num (2/3)
  | "⅕" => .num (1/5)
  | "⅖" => .num (2/5)
  | "⅗" => .num (3/5)
  | "⅘" => .num (4/5)
  | "⅙" => .num (1/6)
  | "⅚" => .num (5/6)
  | "⅐" => .num (1/7)
  | "⅛" => .num (1/8)
  | "⅜" => .num (3/8)
  | "⅝" => .num (5/8)
  | "⅞" => .num (7/8)
  | "⅑" => .num (1/9)
  | "⅒" => .num (1/10)
  | "-¼" => .num (-(1/4))
  | "-½" => .num (-(1/2))
  | "-¾" => .num (-(3/4))
  | "-⅓" => .num (-(1/3))
  | "-⅔" => .num (-(2/3))
  | "-⅕" => .num (-(1/5))
  | "-⅖" => .num (-(2/5))
  | "-⅗" => .num (-(3/5))
  | "-⅘" => .num (-(4/5))
  | "-⅙" => .num (-(1/6))
  | "-⅚" => .num (-(5/6))
  | "-⅐" => .num (-(1/7))
  | "-⅛" => .num (-(1/8))
  | "-⅜" => .num (-(3/8))
  | "-⅝" => .num (-(5/8))
  | "-⅞" => .num (-(7/8))
  | "-⅑" => .num (-(1/9))
  | "-⅒" => .num (-(1/10))
  | _ =>
    if endsWithStr token "deg" || endsWithStr token "°" then .degOf token
    else if endsWithStr token "%" then .pctOf token
    else .floatOf token

/-- `t[key] = value` on a JS object, modelled on an insertion-ordered
association list (assigning an existing key overwrites in place). -/
def setKey (t : List (String × PV)) (k : String) (v : PV) : List (String × PV) :=
  match t with
  | [] => [(k, v)]
  | (k', v') :: rest => if k' == k then (k, v) :: rest else (k', v') :: setKey rest k v

/-- The three mutually recursive control points of `_parse`: the top of the
function (line 931), the array element loop (line 949), and the table entry
loop (line 973), each with its position and accumulator. -/
inductive PJob where
  | top (i : Nat)
  | arrLoop (i : Nat) (acc : List PV)
  | tabLoop (i : Nat) (acc : List (String × PV))

/-- Lines 925-1071, `_parse(source, i)`, as a single step function over
`PJob` with explicit fuel (every recursive call and loop iteration consumes
one unit; `parseLiteral` supplies more fuel than the source can consume on
the same input).

* `top`: the outer `while` loop advances only through the whitespace case —
  every other case returns — so it is modelled by skipping whitespace once;
  falling off the end of the input throws `unexpectedEndOfInput` (line
  1070).  A quote scans to the matching unescaped quote (or the end of the
  input) and returns the raw substring (lines 938-942); `[` and `{` consume
  the bracket and leading space and enter their loops; anything else is an
  atom token scanned to the next separator, lower-cased and looked up
  (lines 1008-1066); an atom's `next` is one past the separator.
* `arrLoop`: lines 944-966.  Parses elements until `]` or the end of input;
  a child result equal to the string `'…'` skips to the closing `]` and
  returns an empty array; the trailing comma and space are consumed after
  each element.
* `tabLoop`: lines 968-1006.  Reads a quoted or bare key, handles the `'…'`
  key the same way, consumes the colon and space, parses the value, and
  stores it. -/
def parseStep : Nat → List Char → PJob → Except PErr (PV × Nat)
  | 0, _, _ => .error .outOfFuel
  | fuel + 1, s, job =>
    match job with
    | .top i =>
      let j := skipMem wsChars s i
      if h : j < s.length then
        match s.get ⟨j, h⟩ with
        | '"' =>
          let b := j + 1
          let e := b + strScan '"' (s.drop b)
          .ok (.str (substr s b e), e + 1)
        | '[' => parseStep fuel s (.arrLoop (skipMem wsChars s (j + 1)) [])
        | '{' => parseStep fuel s (.tabLoop (skipMem wsChars s (j + 1)) [])
        | _ =>
          let e := sepIndex atomSeps s j
          .ok (atomValue (toLowerStr (substr s j e)), e + 1)
      else
        .error .unexpectedEndOfInput
    | .arrLoop i acc =>
      if h : i < s.length then
        if s.get ⟨i, h⟩ == ']' then .ok (.arr acc, i + 1)
        else
          match parseStep fuel s (.top i) with
          | .error e => .error e
          | .ok (v, nxt) =>
            match v with
            | .str "…" => .ok (.arr [], skipToClose ']' s i + 1)
            | _ => parseStep fuel s (.arrLoop (skipMem commaWs s nxt) (acc ++ [v]))
      else .ok (.arr acc, i + 1)
    | .tabLoop i acc =>
      if h : i < s.length then
        if s.get ⟨i, h⟩ == '}' then .ok (.table acc, i + 1)
        else
          let keyStep : Except PErr (String × Nat) :=
            if s.get ⟨i, h⟩ == '"' then
              match parseStep fuel s (.top i) with
              | .error e => .error e
              | .ok (.str k, nxt) => .ok (k, nxt)
              | .ok (_, nxt) => .ok ("", nxt)
            else
              .ok (substr s i (sepIndex keySeps s i), sepIndex keySeps s i)
          match keyStep with
          | .error e => .error e
          | .ok (key, i1) =>
            if key == "…" then .ok (.table [], skipToClose '}' s i1 + 1)
            else
              let i2 := skipMem colonWs s i1
              match parseStep fuel s (.top i2) with
              | .error e => .error e
              | .ok (v, nxt) =>
                parseStep fuel s (.tabLoop (skipMem commaWs s nxt) (setKey acc key v))
      else .ok (.table acc, i + 1)

/-- `_parse(source, i)` with fuel that exceeds the recursion depth of the
source on `source` (along any call path of `_parse`, the scan position
advances at least once every two calls, and it never exceeds the length of
the input). -/
def parseLiteral (source : String) (i : Nat := 0) : Except PErr (PV × Nat) :=
  parseStep (4 * source.length + 16) source.data (.top i)


/-! ## Bitwise helper lemmas for the quantization proofs -/

theorem lor_shiftRight (x y n : Nat) : (x ||| y) >>> n = (x >>> n) ||| (y >>> n) := by
  apply Nat.eq_of_testBit_eq
  intro j
  simp [Nat.testBit_lor, Nat.testBit_shiftRight]

theorem lor_shiftLeft (x y n : Nat) : (x ||| y) <<< n = (x <<< n) ||| (y <<< n) := by
  apply Nat.eq_of_testBit_eq
  intro j
  simp [Nat.testBit_lor, Nat.testBit_shiftLeft, Bool.and_or_distrib_left]

theorem lor_land (x y m : Nat) : (x ||| y) &&& m = (x &&& m) ||| (y &&& m) := by
  apply Nat.eq_of_testBit_eq
  intro j
  simp [Nat.testBit_lor, Nat.testBit_land, Bool.and_or_distrib_right]

theorem shiftLeft_shiftRight_cancel (x : Nat) : (x <<< 4) >>> 4 = x := by
  rw [Nat.shiftLeft_eq, Nat.shiftRight_eq_div_pow]
  exact Nat.mul_div_cancel x (by norm_num)

/-- The nibble mask has no bit at distance 4 above one of its bits. -/
theorem mask_shift_zero (c : Nat) (hc : c &&& 0x0F0F0F0F = c) :
    (c >>> 4) &&& 0x0F0F0F0F = 0 := by
  apply Nat.eq_of_testBit_eq
  intro j
  simp only [Nat.testBit_land, Nat.testBit_shiftRight, Nat.zero_testBit]
  have hcbit : c.testBit (4 + j) = (c.testBit (4 + j) && (0x0F0F0F0F : Nat).testBit (4 + j)) := by
    conv_lhs => rw [← hc]
    simp [Nat.testBit_land]
  rw [hcbit, Bool.and_assoc]
  have key : ((0x0F0F0F0F : Nat).testBit (4 + j) && (0x0F0F0F0F : Nat).testBit j) = false := by
    rcases Nat.lt_or_ge j 28 with h28 | h28
    · interval_cases j <;> decide
    · have hhi : (0x0F0F0F0F : Nat).testBit j = false :=
        Nat.testBit_lt_two_pow (lt_of_lt_of_le (by norm_num)
          (Nat.pow_le_pow_right (by norm_num) h28))
      rw [hhi, Bool.and_false]
  rw [key, Bool.and_false]

theorem land_mask_idem (v : Nat) :
    ((v >>> 4) &&& 0x0F0F0F0F) &&& 0x0F0F0F0F = (v >>> 4) &&& 0x0F0F0F0F := by
  rw [Nat.land_assoc, Nat.and_self]

theorem quantize32_lor (a b : Nat) :
    quantize32 (a ||| b) = quantize32 a ||| quantize32 b := by
  unfold quantize32
  rw [lor_shiftRight, lor_land, lor_shiftLeft, Nat.lor_assoc, Nat.lor_assoc]
  congr 1
  rw [← Nat.lor_assoc, ← Nat.lor_assoc]
  congr 1
  exact Nat.lor_comm _ _

theorem quantize32_idem (v : Nat) : quantize32 (quantize32 v) = quantize32 v := by
  have key : ∀ c, c &&& 0x0F0F0F0F = c →
      ((((c <<< 4) ||| c) >>> 4) &&& 0x0F0F0F0F) = c := by
    intro c hc
    rw [lor_shiftRight, shiftLeft_shiftRight_cancel, lor_land, hc,
      mask_shift_zero c hc, Nat.or_zero]
  unfold quantize32
  rw [key _ (land_mask_idem v)]

set_option maxRecDepth 16384 in
theorem quantize32_shl8 : ∀ b < 256, quantize32 (b <<< 8) = (quantize32 b) <<< 8 := by decide

set_option maxRecDepth 16384 in
theorem quantize32_shl16 : ∀ b < 256, quantize32 (b <<< 16) = (quantize32 b) <<< 16 := by decide

set_option maxRecDepth 16384 in
theorem quantize32_shl24 : ∀ b < 256, quantize32 (b <<< 24) = (quantize32 b) <<< 24 := by decide

/-! ## Row-indexing lemmas for the flipped-buffer proof -/

theorem length_flatMap_rows {α : Type} (f : Nat → List α) (w : Nat)
    (hw : ∀ y, (f y).length = w) (h : Nat) :
    ((List.range h).flatMap f).length = h * w := by
  induction h with
  | zero => simp
  | succ k ih =>
    rw [List.range_succ, List.flatMap_append]
    simp [ih, hw, Nat.succ_mul]

theorem getD_flatMap_rows {α : Type} (f : Nat → List α) (w : Nat)
    (hw : ∀ y, (f y).length = w) (h y x : Nat) (d : α)
    (hy : y < h) (hx : x < w) :
    ((List.range h).flatMap f).getD (x + y * w) d = (f y).getD x d := by
  induction h with
  | zero => exact absurd hy (Nat.not_lt_zero y)
  | succ k ih =>
    rw [List.range_succ, List.flatMap_append]
    rcases Nat.lt_or_ge y k with hyk | hyk
    · rw [List.getD_append]
      · exact ih hyk
      · rw [length_flatMap_rows f w hw k]
        calc x + y * w < w + y * w := by omega
        _ = (y + 1) * w := by ring
        _ ≤ k * w := Nat.mul_le_mul_right w (by omega)
    · have hyk' : y = k := by omega
      rw [hyk']
      rw [List.getD_append_right]
      · rw [length_flatMap_rows f w hw k]
        simp [Nat.add_sub_cancel, List.flatMap_cons, List.flatMap_nil]
      · rw [length_flatMap_rows f w hw k]
        omega

/-! ## Whitespace lemma for the parser -/

theorem parse_ws_error (s : List Char) (i fuel : Nat)
    (hws : (s.drop i).all (fun c => wsChars.contains c)) :
    parseStep (fuel + 1) s (.top i) = .error .unexpectedEndOfInput := by
  have h1 : ((s.drop i).takeWhile (fun c => wsChars.contains c)) = s.drop i :=
    List.takeWhile_eq_self_iff.mpr (by simpa [List.all_eq_true] using hws)
  have hskip : ¬ (skipMem wsChars s i < s.length) := by
    unfold skipMem
    rw [h1, List.length_drop]
    omega
  simp [parseStep, hskip]

/-- C1: the manifest mode list is validated by counting the entries that
contain the start marker character; zero start modes and more than one
start mode each throw a (fatal) manifest error, and exactly one start mode
passes validation. -/
theorem c1_start_mode_validation (modes : List String) :
    (countStartModes modes = 0 →
      validateModes modes = .error "No starting mode (noted with *)") ∧
    (countStartModes modes > 1 →
      validateModes modes = .error "Too many starting modes (noted with *)") ∧
    (countStartModes modes = 1 → validateModes modes = .ok modes) := by
  unfold validateModes
  refine ⟨fun h => by simp [h], fun h => ?_, fun h => by simp [h]⟩
  rw [if_neg (by omega), if_pos h]

theorem c1_witness :
    (countStartModes ["Title", "Play*"] = 1 ∧
      validateModes ["Title", "Play*"] = .ok ["Title", "Play*"]) ∧
    (countStartModes ["Title", "Play"] = 0 ∧
      validateModes ["Title", "Play"] = .error "No starting mode (noted with *)") ∧
    (countStartModes ["Title*", "Play*"] > 1 ∧
      validateModes ["Title*", "Play*"] = .error "Too many starting modes (noted with *)") :=
  ⟨⟨by decide, (c1_start_mode_validation _).2.2 (by decide)⟩,
   ⟨by decide, (c1_start_mode_validation _).1 (by decide)⟩,
   ⟨by decide, (c1_start_mode_validation _).2.1 (by decide)⟩⟩

/-- C10: a manifest without a `screenSize` field receives the default
384 x 224 and passes the screen-size validation. -/
theorem c10_default_screen_size : checkScreenSize none = .ok (384, 224) := rfl

theorem and_bit31 (gid : Nat) : (gid &&& 0x80000000 != 0) = gid.testBit 31 := by
  have h : (0x80000000 : Nat) = 2 ^ 31 := by norm_num
  rw [h, Nat.and_two_pow]
  cases hb : gid.testBit 31 <;> simp

theorem and_bit30 (gid : Nat) : (gid &&& 0x40000000 != 0) = gid.testBit 30 := by
  have h : (0x40000000 : Nat) = 2 ^ 30 := by norm_num
  rw [h, Nat.and_two_pow]
  cases hb : gid.testBit 30 <;> simp

theorem and_mask28 (gid : Nat) : gid &&& 0x0fffffff = gid % 2 ^ 28 := by
  apply Nat.eq_of_testBit_eq
  intro j
  rw [show (0x0fffffff : Nat) = 2 ^ 28 - 1 from by norm_num]
  simp only [Nat.testBit_land, Nat.testBit_mod_two_pow, Nat.testBit_two_pow_sub_one]
  exact Bool.and_comm _ _

/-- C2: a 32-bit tile GID decodes with bit 31 as the horizontal-flip flag,
bit 30 as the vertical-flip flag, and the low 28 bits minus one as the cell
index `i`, split as column `i mod columns` and row `i / columns`; a zero
low-28-bit field (in particular gid 0) is an empty cell; gid 0x80000001 on a
4-column sheet is cell (0,0) with only the horizontal flip set; and the flip
flags select the sprite variant whose scale is negated on the matching
axes. -/
theorem c2_gid_decoding (gid columns : Nat) (_hg : gid < 2 ^ 32) (_hc : 0 < columns) :
    (decodeGidCell gid columns = none ↔ gid % 2 ^ 28 = 0) ∧
    (gid % 2 ^ 28 ≠ 0 →
      decodeGidCell gid columns =
        some (((gid % 2 ^ 28 - 1) % columns, (gid % 2 ^ 28 - 1) / columns),
          gid.testBit 31, gid.testBit 30)) ∧
    decodeGidCell 0x80000001 4 = some ((0, 0), true, false) ∧
    decodeGidCell 0 columns = none ∧
    (∀ (u v sx sy g n : Nat) (fx fy : Bool), ∃ k,
      selectVariant (buildSpriteVariants u v sx sy g n) fx fy = some k ∧
      ((buildSpriteVariants u v sx sy g n) k).scale =
        (((if fx then -1 else 1) : Int), ((if fy then -1 else 1) : Int))) := by
  refine ⟨?_, ?_, rfl, rfl, ?_⟩
  · unfold decodeGidCell
    rw [and_mask28]
    constructor
    · intro h
      by_contra hne
      rw [if_pos (by omega)] at h
      exact Option.noConfusion h
    · intro h
      rw [h]
      simp
  · intro hne
    unfold decodeGidCell
    rw [and_mask28, and_bit31, and_bit30, if_pos (by omega)]
    have ht : ((gid % 2 ^ 28 : Nat) - (1 : Int)).toNat = gid % 2 ^ 28 - 1 := by omega
    rw [ht]
  · intro u v sx sy g n fx fy
    cases fx <;> cases fy
    · exact ⟨0, rfl, rfl⟩
    · exact ⟨2, rfl, rfl⟩
    · exact ⟨1, rfl, rfl⟩
    · exact ⟨3, rfl, rfl⟩

theorem c2_witness :
    (0x80000001 : Nat) < 2 ^ 32 ∧ 0 < 4 ∧
    decodeGidCell 0x80000001 4 = some ((0, 0), true, false) :=
  ⟨by decide, by decide, (c2_gid_decoding 0x80000001 4 (by decide) (by decide)).2.2.1⟩

/-- C3: the horizontally mirrored pixel buffer produced by
`getImageData4BitAndFlip` satisfies `flipped[x + y*w] = original[(w-1-x) + y*w]`
for every `x < w` and `y < h`. -/
theorem c3_horizontal_flip (w h : Nat) (src : List Nat) (x y : Nat)
    (hx : x < w) (hy : y < h) :
    (getImageData4BitAndFlip w h src).2.getD (x + y * w) 0 =
      (getImageData4BitAndFlip w h src).1.getD ((w - 1 - x) + y * w) 0 := by
  show (flipBuffer w h (getImageData4Bit src)).getD (x + y * w) 0 =
    (getImageData4Bit src).getD ((w - 1 - x) + y * w) 0
  unfold flipBuffer
  rw [getD_flatMap_rows _ w (fun y => by simp) h y x 0 hy hx]
  simp [List.getD_eq_getElem?_getD, List.getElem?_map, List.getElem?_range, hx]

theorem c3_witness :
    0 < 2 ∧ 0 < 1 ∧
    (getImageData4BitAndFlip 2 1 [0x11, 0x22]).2.getD 0 0 =
      (getImageData4BitAndFlip 2 1 [0x11, 0x22]).1.getD 1 0 :=
  ⟨by decide, by decide, c3_horizontal_flip 2 1 [0x11, 0x22] 0 0 (by decide) (by decide)⟩

set_option maxRecDepth 16384 in
/-- C4: the quantization `v -> ((v>>4)&0xF)*17` on every 8-bit channel value,
exactness at 0 and 255, channel-wise action on a packed 32-bit RGBA word, and
idempotence (both per word and on a whole quantized buffer). -/
theorem c4_quantization :
    (∀ v, v < 256 → quantize32 v = ((v >>> 4) &&& 0xF) * 17) ∧
    quantize32 0 = 0 ∧ quantize32 255 = 255 ∧
    (∀ b0 b1 b2 b3, b0 < 256 → b1 < 256 → b2 < 256 → b3 < 256 →
      quantize32 (b0 ||| (b1 <<< 8) ||| (b2 <<< 16) ||| (b3 <<< 24)) =
        quantize32 b0 ||| ((quantize32 b1) <<< 8) ||| ((quantize32 b2) <<< 16) |||
          ((quantize32 b3) <<< 24)) ∧
    (∀ v, quantize32 (quantize32 v) = quantize32 v) ∧
    (∀ buf : List Nat, getImageData4Bit (getImageData4Bit buf) = getImageData4Bit buf) := by
  refine ⟨by decide, by decide, by decide, ?_, quantize32_idem, ?_⟩
  · intro b0 b1 b2 b3 h0 h1 h2 h3
    rw [quantize32_lor, quantize32_lor, quantize32_lor,
      quantize32_shl8 b1 h1, quantize32_shl16 b2 h2, quantize32_shl24 b3 h3]
  · intro buf
    simp [getImageData4Bit, List.map_map, Function.comp_def, quantize32_idem]

set_option maxRecDepth 16384 in
theorem c4_witness :
    (171 < 256 ∧ quantize32 171 = ((171 >>> 4) &&& 0xF) * 17) ∧
    quantize32 (0x12 ||| (0x34 <<< 8) ||| (0x56 <<< 16) ||| (0x78 <<< 24)) =
      quantize32 0x12 ||| ((quantize32 0x34) <<< 8) ||| ((quantize32 0x56) <<< 16) |||
        ((quantize32 0x78) <<< 24) :=
  ⟨⟨by decide, c4_quantization.1 171 (by decide)⟩,
   c4_quantization.2.2.2.1 0x12 0x34 0x56 0x78 (by decide) (by decide) (by decide) (by decide)⟩

/-- C5 counterexample: the flip-both variant's `flippedX` reference is the
flip-X variant (whose scale negates x), not the flip-Y variant (index 2,
whose scale negates y) as the claim states. -/
theorem c5_counterexample :
    ((buildSpriteVariants 0 0 8 8 0 0) 3).flippedX = some 1 ∧
    ((buildSpriteVariants 0 0 8 8 0 0) 1).scale = (-1, 1) ∧
    ((buildSpriteVariants 0 0 8 8 0 0) 2).scale = (1, -1) ∧
    ((buildSpriteVariants 0 0 8 8 0 0) 3).flippedX ≠ some 2 :=
  ⟨rfl, rfl, rfl, by decide⟩

/-- C5 (amended): for every sprite, `flippedX.flippedY` and
`flippedY.flippedX` are the same flip-both object; the base and flip-X
variants' flips are mutually inverse; but the flip-both variant's `flippedX`
and `flippedY` references were copied from the base sprite by
`Object.assign`, so they point at the flip-X and flip-Y variants
respectively; and all four variants share the same pixel source cell, so
applying flip-X twice lands on a cell with identical pixel data. -/
theorem c5_variant_cycle (u v sx sy g n : Nat) :
    ((buildSpriteVariants u v sx sy g n) 0).flippedX = some 1 ∧
    ((buildSpriteVariants u v sx sy g n) 0).flippedY = some 2 ∧
    ((buildSpriteVariants u v sx sy g n) 1).flippedY = some 3 ∧
    ((buildSpriteVariants u v sx sy g n) 2).flippedX = some 3 ∧
    ((buildSpriteVariants u v sx sy g n) 1).flippedX = some 0 ∧
    ((buildSpriteVariants u v sx sy g n) 2).flippedY = some 0 ∧
    ((buildSpriteVariants u v sx sy g n) 3).flippedX = some 1 ∧
    ((buildSpriteVariants u v sx sy g n) 3).flippedY = some 2 ∧
    ((buildSpriteVariants u v sx sy g n) 0).scale = (1, 1) ∧
    ((buildSpriteVariants u v sx sy g n) 1).scale = (-1, 1) ∧
    ((buildSpriteVariants u v sx sy g n) 2).scale = (1, -1) ∧
    ((buildSpriteVariants u v sx sy g n) 3).scale = (-1, -1) ∧
    (∀ k : Fin 4,
      ((buildSpriteVariants u v sx sy g n) k).tileX = u ∧
      ((buildSpriteVariants u v sx sy g n) k).tileY = v ∧
      ((buildSpriteVariants u v sx sy g n) k).x = u * (sx + g) ∧
      ((buildSpriteVariants u v sx sy g n) k).y = v * (sy + g) ∧
      ((buildSpriteVariants u v sx sy g n) k).id = n + 1) := by
  refine ⟨rfl, rfl, rfl, rfl, rfl, rfl, rfl, rfl, rfl, rfl, rfl, rfl, fun k => ?_⟩
  fin_cases k <;> exact ⟨rfl, rfl, rfl, rfl, rfl⟩

/-- C6: an animation entry must have exactly one of the single-cell and the
range form; a missing `end` defaults to the start cell; a range that varies
in both axes is the animation-range error; and a valid range walks from
start to end inclusive, e.g. (0,0)..(2,0) yields (0,0),(1,0),(2,0). -/
theorem c6_animation_names :
    (∀ (t : Bool) (c r : Nat) (e : NamesEntry),
      e.single.isSome → e.start.isSome →
      decodeAnim t c r e = .error .bothOrNeitherForm) ∧
    (∀ (t : Bool) (c r : Nat) (e : NamesEntry),
      e.single = none → e.start = none →
      decodeAnim t c r e = .error .bothOrNeitherForm) ∧
    (∀ (t : Bool) (c r : Nat) (st : Pt) (ex : Option String),
      decodeAnimRange t c r st none ex =
        decodeAnimRange t c r st (some ⟨some st.x, some st.y⟩) ex) ∧
    (∀ (t : Bool) (c r : Nat) (sx sy ex ey : Int) (extr : Option String),
      sx ≠ ex → sy ≠ ey →
      decodeAnimRange t c r ⟨sx, sy⟩ (some ⟨some ex, some ey⟩) extr =
        .error .diagonalRange) ∧
    decodeAnim false 4 4 ⟨none, some ⟨0, 0⟩, some ⟨some 2, some 0⟩, none⟩ =
      .ok ([(0, 0), (1, 0), (2, 0)], "loop") ∧
    decodeAnim false 4 4 ⟨none, some ⟨0, 0⟩, some ⟨some 1, some 1⟩, none⟩ =
      .error .diagonalRange := by
  refine ⟨?_, ?_, ?_, ?_, rfl, rfl⟩
  · intro t c r e h1 h2
    rcases e with ⟨s1, s2, st, ex⟩
    cases s1 <;> cases s2 <;> simp_all [decodeAnim]
  · intro t c r e h1 h2
    rcases e with ⟨s1, s2, st, ex⟩
    cases s1 <;> cases s2 <;> simp_all [decodeAnim]
  · intro t c r st ex
    rfl
  · intro t c r sx sy ex ey extr h1 h2
    simp [decodeAnimRange, h1, h2]

theorem c6_witness :
    ((⟨some ⟨1, 1⟩, some ⟨0, 0⟩, none, none⟩ : NamesEntry).single.isSome ∧
     (⟨some ⟨1, 1⟩, some ⟨0, 0⟩, none, none⟩ : NamesEntry).start.isSome ∧
     decodeAnim false 4 4 ⟨some ⟨1, 1⟩, some ⟨0, 0⟩, none, none⟩ =
       .error .bothOrNeitherForm) ∧
    ((0 : Int) ≠ 1 ∧ (0 : Int) ≠ 2 ∧
     decodeAnimRange false 4 4 ⟨0, 0⟩ (some ⟨some 1, some 2⟩) none =
       .error .diagonalRange) :=
  ⟨⟨rfl, rfl, c6_animation_names.1 false 4 4 _ rfl rfl⟩,
   ⟨by decide, by decide,
    c6_animation_names.2.2.2.1 false 4 4 0 0 1 2 none (by decide) (by decide)⟩⟩

/-- C7 counterexample: an unterminated quoted string does not raise the
end-of-input error; `_parse` returns the rest of the input as the string
value (and similarly for unclosed arrays and tables, shown in the amended
theorem). -/
theorem c7_counterexample :
    parseLiteral "\"abc" 0 = .ok (.str "abc", 5) ∧
    parseLiteral "\"abc" 0 ≠ .error .unexpectedEndOfInput := by
  refine ⟨rfl, ?_⟩
  rw [show parseLiteral "\"abc" 0 = .ok (.str "abc", 5) from rfl]
  simp

/-- C7 (amended): `_parse` raises its end-of-input error when a parse — the
top-level call or a nested value parse inside a table — starts at a position
where nothing but whitespace remains: proven in general for the top-level
call, and shown for a nested value parse on the unclosed tables `\x7ba:` and
`\x7ba: ` (the colon skip leaves the value parse at the end of the input).
It does not raise for every unterminated input: an unterminated quoted
string returns the remaining text as the string value, the unclosed array
`[1` and table `\x7ba: 1` return the values read so far, and an empty atom
falls through to `parseFloat` of the empty token, i.e. NaN. -/
theorem c7_end_of_input :
    (∀ (source : String) (i : Nat),
      (source.data.drop i).all (fun c => wsChars.contains c) →
      parseLiteral source i = .error .unexpectedEndOfInput) ∧
    parseLiteral "\x7ba:" 0 = .error .unexpectedEndOfInput ∧
    parseLiteral "\x7ba: " 0 = .error .unexpectedEndOfInput ∧
    parseLiteral "\"abc" 0 = .ok (.str "abc", 5) ∧
    parseLiteral "[1" 0 = .ok (.arr [.floatOf "1"], 4) ∧
    parseLiteral "\x7ba: 1" 0 = .ok (.table [("a", .floatOf "1")], 7) ∧
    parseLiteral "," 0 = .ok (.floatOf "", 1) := by
  refine ⟨?_, rfl, rfl, rfl, rfl, rfl, rfl⟩
  intro source i h
  unfold parseLiteral
  rw [show 4 * source.length + 16 = (4 * source.length + 15) + 1 from by omega]
  exact parse_ws_error _ _ _ h

theorem c7_witness :
    (("  ".data.drop 0).all (fun c => wsChars.contains c)) = true ∧
    parseLiteral "  " 0 = .error .unexpectedEndOfInput :=
  ⟨rfl, c7_end_of_input.1 "  " 0 rfl⟩

theorem parseHex_08 : parseHex "08" = 8 / 255 := rfl

/-- C9 counterexample: `parseHexColor "08"` yields channels 8/255, not 8/15:
`parseHex` picks its divisor from the length of the string before stripping
leading zeros, and `"08"` has length 2. -/
theorem c9_counterexample :
    parseHexColor "08" = .ok ⟨8 / 255, 8 / 255, 8 / 255, 1⟩ ∧
    parseHexColor "08" ≠ .ok ⟨8 / 15, 8 / 15, 8 / 15, 1⟩ := by
  have h1 : parseHexColor "08" = .ok ⟨parseHex "08", parseHex "08", parseHex "08", 1⟩ := rfl
  have h2 : parseHex "08" = 8 / 255 := parseHex_08
  constructor
  · rw [h1, h2]
  · rw [h1, h2]
    intro hco
    have h3 : (8 : ℚ) / 255 = 8 / 15 := by
      injection hco with hv
      exact congrArg Color.r hv
    norm_num at h3

/-- C9 (amended): the two-digit grayscale form divides by 255, so
`parseHexColor "08"` is `r = g = b = 8/255, a = 1`; the one-digit grayscale
form is the one that divides by 15 (`parseHexColor "8"` yields 8/15). -/
theorem c9_gray_two_digit :
    parseHexColor "08" = .ok ⟨8 / 255, 8 / 255, 8 / 255, 1⟩ ∧
    parseHexColor "8" = .ok ⟨8 / 15, 8 / 15, 8 / 15, 1⟩ := by
  constructor
  · rw [show parseHexColor "08" = .ok ⟨parseHex "08", parseHex "08", parseHex "08", 1⟩ from rfl,
      parseHex_08]
  · rw [show parseHexColor "8" = .ok ⟨parseHex "8", parseHex "8", parseHex "8", 1⟩ from rfl,
      show parseHex "8" = 8 / 15 from rfl]

end Quadplay
